import Mathlib

/-!
Verification of the CDC Wonder dataset cataloger.

This file gives a shallow embedding, in Lean, of the pure logic of the
repository:

* `src/src/wonder/catalog.py` — the topic classifier (`TOPIC_SEARCH_TERMS`,
  `classify_dataset`, `catalog_datasets`, `load_dataset_map`,
  `dataset_id_sort_key`, `write_topics_mapping`);
* `src/scanner.py` — the endpoint resolver and selector
  (`extract_years`, `is_wonder_html`, `pick_best_html`, `probe_d_id`,
  `map_d_range`);
* `src/src/wonder/crawl.py` — the link-harvester year extractor
  (`crawl_extract_years`).

Python strings are modelled as Lean `String`s (the data handled by the
program is ASCII), file and network I/O is abstracted away: the CSV rows
become a `Row` structure, and the single HTTP GET performed by a probe
becomes an oracle value of type `GetResult`.  Every definition mirrors the
corresponding Python function; comments cite the source lines.
-/

/-! ### Generic string helpers

Python's `needle in haystack` (and `re.search` of a literal pattern) is
contiguous-substring containment; `str.endswith` is suffix testing.  The
program only handles ASCII data, for which Lean's `Char.toLower` agrees
with Python's `str.lower`.
-/

/-- `isPrefixChars p l` is true iff `p` is a prefix of `l`. -/
def isPrefixChars : List Char → List Char → Bool
  | [], _ => true
  | _ :: _, [] => false
  | a :: as, b :: bs => a == b && isPrefixChars as bs

/-- `containsChars p l` is true iff `p` occurs contiguously inside `l`
(Python `p in l`). -/
def containsChars (p : List Char) : List Char → Bool
  | [] => isPrefixChars p []
  | l@(_ :: rest) => isPrefixChars p l || containsChars p rest

/-- Python `pat in s`: contiguous substring containment. -/
def strContains (s pat : String) : Bool :=
  containsChars pat.toList s.toList

/-- Python `s.endswith(suffix)`. -/
def strEndsWithSuffix (s suffix : String) : Bool :=
  isPrefixChars suffix.toList.reverse s.toList.reverse

/-- Python `s.lower()` (ASCII; `Char.toLower` only maps `A`–`Z`). -/
def strLower (s : String) : String :=
  String.mk (s.toList.map Char.toLower)

/-! ### The topic rule table — `catalog.py` lines 45–171

`TOPIC_SEARCH_TERMS` is an insertion-ordered `dict`; iteration order is
authoring order, so we embed it as a list.  Each pattern is a regex applied
with `re.search(..., re.IGNORECASE)` to the already lower-cased page name;
all patterns are lower-case, so the flag is a no-op.  All patterns but two
are literal substrings; `tb(?:-|$|v)` and `pm(?:2\.5|25)?` get their own
constructors with their exact match semantics. -/

/-- One search pattern of a topic rule. -/
inductive Pat where
  /-- a literal-substring regex -/
  | lit : String → Pat
  /-- the regex `tb(?:-|$|v)` of the Infectious Diseases rule -/
  | tbAlt : Pat
  /-- the regex `pm(?:2\.5|25)?` of the Environmental Health rule;
  the whole group is optional, so a bare `pm` occurrence matches -/
  | pmOpt : Pat

/-- `re.search` of one pattern against the (lower-cased) page name. -/
def patMatch (p : Pat) (s : String) : Bool :=
  match p with
  | .lit w => strContains s w
  | .tbAlt => strContains s "tb-" || strEndsWithSuffix s "tb" || strContains s "tbv"
  | .pmOpt => strContains s "pm2.5" || strContains s "pm25" || strContains s "pm"

/-- One entry of `TOPIC_SEARCH_TERMS`: topic name, ordered patterns, and the
`reason_template` (Python `str.format` specialised to its two fields). -/
structure TopicRule where
  topic : String
  patterns : List Pat
  reason_template : String → String → String

/-- Rule 1, "Maternal & Child Health" (`catalog.py` lines 46–59). -/
def mchRule : TopicRule :=
  { topic := "Maternal & Child Health",
    patterns := [.lit "fetal", .lit "lbd", .lit "infant"],
    reason_template := fun d p =>
      "Dataset \x27" ++ d ++ "\x27 maps to \x27Maternal & Child Health\x27 because its " ++
      "page name \x27" ++ p ++ "\x27 contains fetal death or linked birth/infant death " ++
      "(LBD) patterns. LBD datasets link infant death records to corresponding " ++
      "birth certificates for analysis of infant mortality risk factors." }

/-- Rule 2, "Population Estimates" (`catalog.py` lines 60–74). -/
def popEstRule : TopicRule :=
  { topic := "Population Estimates",
    patterns := [.lit "bridged-race", .lit "single-race", .lit "population-projection",
                 .lit "birth-death-migration"],
    reason_template := fun d p =>
      "Dataset \x27" ++ d ++ "\x27 maps to \x27Population Estimates\x27 because its page " ++
      "name \x27" ++ p ++ "\x27 contains population estimation patterns. Bridged-race " ++
      "and single-race datasets provide demographic population estimates used " ++
      "as denominators for calculating health rates." }

/-- Rule 3, "Birth & Natality" (`catalog.py` lines 75–85). -/
def natalityRule : TopicRule :=
  { topic := "Birth & Natality",
    patterns := [.lit "natality"],
    reason_template := fun d p =>
      "Dataset \x27" ++ d ++ "\x27 maps to \x27Birth & Natality\x27 because its page name " ++
      "\x27" ++ p ++ "\x27 contains natality/birth-related keywords. Natality datasets " ++
      "provide birth statistics including birth rates, birth weights, maternal " ++
      "characteristics, and prenatal care information." }

/-- Rule 4, "Cancer" (`catalog.py` lines 86–99). -/
def cancerRule : TopicRule :=
  { topic := "Cancer",
    patterns := [.lit "cancer", .lit "cancermort", .lit "cancermir", .lit "cancernpcr"],
    reason_template := fun d p =>
      "Dataset \x27" ++ d ++ "\x27 maps to \x27Cancer\x27 because its page name " ++
      "\x27" ++ p ++ "\x27 contains cancer-related keywords. These datasets cover " ++
      "cancer incidence rates, cancer mortality, survival statistics, and " ++
      "data from the National Program of Cancer Registries (NPCR)." }

/-- Rule 5, "Infectious Diseases" (`catalog.py` lines 100–113). -/
def infectiousRule : TopicRule :=
  { topic := "Infectious Diseases",
    patterns := [.lit "aids", .tbAlt, .lit "std", .lit "tuberculosis"],
    reason_template := fun d p =>
      "Dataset \x27" ++ d ++ "\x27 maps to \x27Infectious Diseases\x27 because its page " ++
      "name \x27" ++ p ++ "\x27 contains patterns for AIDS, tuberculosis (TB), or " ++
      "sexually transmitted diseases (STD). These are key infectious disease " ++
      "surveillance datasets tracking reportable conditions." }

/-- Rule 6, "Vaccinations & Immunizations" (`catalog.py` lines 114–126). -/
def vaccineRule : TopicRule :=
  { topic := "Vaccinations & Immunizations",
    patterns := [.lit "vaers", .lit "vaccine", .lit "immunization"],
    reason_template := fun d p =>
      "Dataset \x27" ++ d ++ "\x27 maps to \x27Vaccinations & Immunizations\x27 because " ++
      "its page name \x27" ++ p ++ "\x27 contains VAERS or vaccine-related keywords. " ++
      "VAERS (Vaccine Adverse Event Reporting System) tracks reported adverse " ++
      "events following vaccination." }

/-- Rule 7, "Environmental Health" (`catalog.py` lines 127–144). -/
def envHealthRule : TopicRule :=
  { topic := "Environmental Health",
    patterns := [.lit "nasa", .lit "nldas", .lit "heatwave", .lit "nca", .lit "insolar",
                 .lit "precipitation", .pmOpt, .lit "lst"],
    reason_template := fun d p =>
      "Dataset \x27" ++ d ++ "\x27 maps to \x27Environmental Health\x27 because its page " ++
      "name \x27" ++ p ++ "\x27 contains environmental/climate data patterns. These " ++
      "datasets from NASA and NCA provide environmental exposure data including " ++
      "air quality (PM2.5), temperature, precipitation, and heat wave metrics." }

/-- Rule 8, "Notifiable Conditions" (`catalog.py` lines 145–155). -/
def nndssRule : TopicRule :=
  { topic := "Notifiable Conditions",
    patterns := [.lit "nndss"],
    reason_template := fun d p =>
      "Dataset \x27" ++ d ++ "\x27 maps to \x27Notifiable Conditions\x27 because its page " ++
      "name \x27" ++ p ++ "\x27 contains NNDSS (National Notifiable Diseases " ++
      "Surveillance System). This system tracks diseases required by law to be " ++
      "reported to public health authorities." }

/-- Rule 9, "Mortality" (`catalog.py` lines 156–170). -/
def mortalityRule : TopicRule :=
  { topic := "Mortality",
    patterns := [.lit "cmf", .lit "ucd", .lit "mcd", .lit "mortality"],
    reason_template := fun d p =>
      "Dataset \x27" ++ d ++ "\x27 maps to \x27Mortality\x27 because its page name " ++
      "\x27" ++ p ++ "\x27 matches mortality-related patterns (CMF=Compressed Mortality " ++
      "File, UCD=Underlying Cause of Death, MCD=Multiple Cause of Death). These " ++
      "datasets track death rates and causes of death across populations." }

/-- `TOPIC_SEARCH_TERMS`, in authored order (`catalog.py` lines 45–171). -/
def TOPIC_SEARCH_TERMS : List TopicRule :=
  [mchRule, popEstRule, natalityRule, cancerRule, infectiousRule, vaccineRule,
   envHealthRule, nndssRule, mortalityRule]

/-! ### Data model — `catalog.py` lines 174–184, 254–261, and the CSV rows -/

/-- `DatasetMapping` (`catalog.py` lines 174–184). -/
structure DatasetMapping where
  dataset_id : String
  page_name : String
  final_url : String
  topic : String
  category : String
  reason : String
  years : String
deriving DecidableEq

/-- `UnmappedDataset` (`catalog.py` lines 254–261). -/
structure UnmappedDataset where
  dataset_id : String
  page_name : String
  final_url : String
  reason : String
deriving DecidableEq

/-- One CSV row of the dataset-map store (`scanner.py` line 215 lists the
columns; `csv.DictReader` always yields all header keys, so the `dict.get`
defaults in `catalog.py` never fire). -/
structure Row where
  id : String := ""
  controller_url : String := ""
  http_status : String := ""
  discovery : String := ""
  final_url : String := ""
  page_name : String := ""
  years : String := ""
  error : String := ""
deriving DecidableEq

/-! ### The classifier — `catalog.py` lines 187–309 -/

/-- `topic_to_category.get(topic_name, "Unknown")` (`catalog.py` line 236);
the taxonomy dict is modelled as an association list. -/
def topicToCategory (tm : List (String × String)) (topic : String) : String :=
  match tm.lookup topic with
  | some c => c
  | none => "Unknown"

/-- The inner pattern loop of `classify_dataset` (lines 234–235): the rule
matches iff some pattern matches; the first hit short-circuits, and every
pattern of a rule yields the same mapping, so `List.any` (itself a
short-circuit or) is the exact observable behaviour. -/
def matchRule (r : TopicRule) (slug : String) : Bool :=
  r.patterns.any (fun p => patMatch p slug)

/-- The outer rule loop of `classify_dataset` (line 233): first matching
rule in authored order, or `none`. -/
def firstRule (slug : String) : List TopicRule → Option TopicRule
  | [] => none
  | r :: rs => if matchRule r slug then some r else firstRule slug rs

/-- `classify_dataset` (`catalog.py` lines 218–251). -/
def classify_dataset (row : Row) (tm : List (String × String)) : Option DatasetMapping :=
  match firstRule (strLower row.page_name) TOPIC_SEARCH_TERMS with
  | none => none
  | some r =>
      some { dataset_id := row.id,
             page_name := row.page_name,
             final_url := row.final_url,
             topic := r.topic,
             category := topicToCategory tm r.topic,
             reason := r.reason_template row.id row.page_name,
             years := row.years }

/-- The generic rationale of `catalog_datasets` for unmapped rows
(`catalog.py` lines 290–295). -/
def unmappedReason (d p : String) : String :=
  "Dataset \x27" ++ d ++ "\x27 with page \x27" ++ p ++ "\x27 could not be mapped " ++
  "to any topic. None of the defined search patterns matched the page name. " ++
  "Consider adding a new pattern to TOPIC_SEARCH_TERMS if this dataset " ++
  "belongs to an existing topic, or create a new topic category."

/-- The `UnmappedDataset` built for a row no rule matched
(`catalog.py` lines 287–303). -/
def mkUnmapped (row : Row) : UnmappedDataset :=
  { dataset_id := row.id,
    page_name := row.page_name,
    final_url := row.final_url,
    reason := unmappedReason row.id row.page_name }

/-- The classification loop of `catalog_datasets` (`catalog.py` lines
279–303): each row appends to exactly one of the two accumulating lists,
in input order. -/
def catalogCore (rows : List Row) (tm : List (String × String)) :
    List DatasetMapping × List UnmappedDataset :=
  match rows with
  | [] => ([], [])
  | r :: rs =>
      let rest := catalogCore rs tm
      match classify_dataset r tm with
      | some m => (m :: rest.1, rest.2)
      | none => (rest.1, mkUnmapped r :: rest.2)

/-- The row filter of `load_dataset_map` (`catalog.py` lines 192–195): keep
a row iff its `page_name` is truthy (non-empty) and its `discovery` is
exactly `"redirect"`.  File reading is abstracted to the given row list. -/
def load_dataset_map (rows : List Row) : List Row :=
  rows.filter (fun r => r.page_name != "" && r.discovery == "redirect")

/-- `catalog_datasets` (`catalog.py` lines 264–309), with the two file
loads abstracted to a row list and a topic→category association list. -/
def catalog_datasets (rows : List Row) (tm : List (String × String)) :
    List DatasetMapping × List UnmappedDataset :=
  catalogCore (load_dataset_map rows) tm

/-! ### Year extraction — `scanner.py` lines 37–55

`re.findall(r"\d{4}", text)` scans left to right: at each position it
matches four consecutive digits if present (continuing after the match),
otherwise advances one character.  The matched year strings are filtered by
`1900 <= int(y) <= 2500`, passed through `sorted(set(...))` and formatted.
We model the years as `Nat`s: every surviving year renders back to the same
four-digit string, and Python's lexicographic sort of equal-length digit
strings coincides with the numeric sort. -/

/-- Numeric value of four digit characters. -/
def char4ToNat (c1 c2 c3 c4 : Char) : Nat :=
  (((c1.toNat - 48) * 10 + (c2.toNat - 48)) * 10 + (c3.toNat - 48)) * 10 + (c4.toNat - 48)

/-- Worker for `findall4`, advancing one character per step.  `skip > 0`
consumes the trailing characters of a match just emitted, so that the scan
resumes right after it (the regex engine continues at the match end). -/
def findall4Go : Nat → List Char → List Nat
  | _, [] => []
  | n + 1, _ :: tl => findall4Go n tl
  | 0, c1 :: tl =>
      match tl.take 3 with
      | [c2, c3, c4] =>
          if c1.isDigit && c2.isDigit && c3.isDigit && c4.isDigit then
            char4ToNat c1 c2 c3 c4 :: findall4Go 3 tl
          else
            findall4Go 0 tl
      | _ => []

/-- `re.findall(r"\d{4}", text)`: non-overlapping left-to-right scan; at
each position four consecutive digits match (and the scan continues after
them), otherwise the scan advances one character.  Fewer than four
remaining characters cannot match. -/
def findall4 (l : List Char) : List Nat := findall4Go 0 l

/-- The window filter `1900 <= int(year) <= 2500` (`scanner.py` line 43). -/
def validYear (y : Nat) : Bool := 1900 ≤ y && y ≤ 2500

/-- Python `sorted(set(l))` (`scanner.py` line 49). -/
def sortedDedup (l : List Nat) : List Nat :=
  List.insertionSort (· ≤ ·) l.dedup

/-- The distinct, window-filtered, ascending year list `unique_years` of
`extract_years` (`scanner.py` lines 42–49). -/
def distinctValidYears (s : String) : List Nat :=
  sortedDedup ((findall4 s.toList).filter validYear)

/-- `extract_years` (`scanner.py` lines 37–55). -/
def extract_years (s : String) : String :=
  if s = "" then ""
  else
    match distinctValidYears s with
    | [] => ""
    | [y] => toString y
    | y :: rest => toString y ++ "-" ++ toString (rest.getLastD y)

/-! ### URL parsing — the pieces of `urllib.parse.urlparse` the scanner uses

The scanner consults `urlparse(u).scheme`, `.netloc` and `.path` of
absolute `http(s)` URLs.  We model the standard shape
`scheme://netloc/path?query#fragment`: the netloc runs from `://` to the
first `/`, `?` or `#`, the path from there to the first `?` or `#`.  A
string without `://` has empty scheme and netloc (as in `urlparse` for the
relative references this program can meet), and its path is the string up
to the first `?` or `#`. -/

/-- Split a character list at the first occurrence of `sep`
(`none` if absent). -/
def splitAtInfix (sep : List Char) : List Char → Option (List Char × List Char)
  | [] => if isPrefixChars sep [] then some ([], []) else none
  | l@(c :: rest) =>
      if isPrefixChars sep l then some ([], l.drop sep.length)
      else
        match splitAtInfix sep rest with
        | some (pre, post) => some (c :: pre, post)
        | none => none

/-- `urlparse(u).scheme` (lower-cased by `urlparse` itself). -/
def urlScheme (u : String) : String :=
  match splitAtInfix "://".toList u.toList with
  | some (pre, _) => strLower (String.mk pre)
  | none => ""

/-- `urlparse(u).netloc`. -/
def urlHost (u : String) : String :=
  match splitAtInfix "://".toList u.toList with
  | some (_, post) => String.mk (post.takeWhile (fun c => c ≠ '/' && c ≠ '?' && c ≠ '#'))
  | none => ""

/-- `urlparse(u).path`. -/
def urlPath (u : String) : String :=
  match splitAtInfix "://".toList u.toList with
  | some (_, post) =>
      String.mk ((post.dropWhile (fun c => c ≠ '/' && c ≠ '?' && c ≠ '#')).takeWhile
        (fun c => c ≠ '?' && c ≠ '#'))
  | none => String.mk (u.toList.takeWhile (fun c => c ≠ '?' && c ≠ '#'))

/-- `BASE` (`scanner.py` line 20). -/
def BASE : String := "https://wonder.cdc.gov"

/-- `is_wonder_html` (`scanner.py` lines 28–35): absolute URL, same netloc
as `BASE` (case-insensitively), path ending in `.html`. -/
def is_wonder_html (url : String) : Bool :=
  urlScheme url != "" && urlHost url != "" &&
  strLower (urlHost url) == strLower (urlHost BASE) &&
  strEndsWithSuffix (strLower (urlPath url)) ".html"

/-! ### Candidate selection — `pick_best_html`, `scanner.py` lines 95–119 -/

/-- The block-list test (`scanner.py` lines 101–106): candidate contains
`faq.html` or `main.html` (checked on the lower-cased URL). -/
def ignoredCand (u : String) : Bool :=
  strContains (strLower u) "faq.html" || strContains (strLower u) "main.html"

/-- `priority_words` (`scanner.py` line 112). -/
def priority_words : List String :=
  ["sql", "icd10", "natality", "mort", "bridged", "birth", "ucd", "cmf", "mcd"]

/-- `sum(1 for w in priority_words if w in path)` with
`path = urlparse(u).path.lower()` (`scanner.py` lines 115–116). -/
def candScore (u : String) : Nat :=
  (priority_words.filter (fun w => strContains (strLower (urlPath u)) w)).length

/-- `len(path)` of the lower-cased path (`scanner.py` line 117). -/
def candPathLen (u : String) : Nat := (strLower (urlPath u)).length

/-- The sort order of `scored.sort(key=lambda x: (-x[0], x[1], x[2]))`
(`scanner.py` line 118), expressed directly on the candidate URL: score
descending, then path length ascending, then the URL string ascending. -/
def candLe (a b : String) : Prop :=
  candScore b < candScore a ∨
    (candScore a = candScore b ∧
      (candPathLen a < candPathLen b ∨ (candPathLen a = candPathLen b ∧ a ≤ b)))

instance : DecidableRel candLe := fun a b => by
  unfold candLe; infer_instance

/-- `pick_best_html` (`scanner.py` lines 95–119).  The Python code sorts
the `(score, len(path), u)` tuples and returns the third component of the
head; sorting the URLs by `candLe` is the same computation. -/
def pick_best_html (candidates : List String) (fallback : Option String) : String :=
  if candidates.isEmpty then fallback.getD ""
  else if (candidates.filter (fun u => !(ignoredCand u))).isEmpty then fallback.getD ""
  else ((candidates.filter (fun u => !(ignoredCand u))).insertionSort candLe).headD ""

/-! ### The probe and the range mapper — `scanner.py` lines 121–222

The single `session.get` of a probe is abstracted as an oracle value: either
a `requests.RequestException` with its message, or a response carrying the
final status code, the final URL `r.url`, the redirect-history/`Location`
header targets (already resolved by `urljoin`, which is library code), and
the candidates mined from an HTML body by `html_redirect_candidates`
(empty when the response is not HTML). -/

/-- Outcome of the one HTTP GET a probe performs. -/
inductive GetResult where
  | err (msg : String)
  | ok (status : Nat) (rurl : String) (locs : List String) (mined : List String)

/-- Python `u.rstrip("/")`. -/
def rstripSlash (u : String) : String :=
  String.mk ((u.toList.reverse.dropWhile (fun c => c = '/')).reverse)

/-- `path.rsplit("/", 1)[-1]`: the part after the last slash
(`scanner.py` line 182). -/
def lastSegment (p : String) : String :=
  String.mk ((p.toList.reverse.takeWhile (fun c => c ≠ '/')).reverse)

/-- The filter-and-dedup of candidates (`scanner.py` lines 165–171): keep
`is_wonder_html` URLs, first occurrence only. -/
def dedupWonderAux (seen : List String) : List String → List String
  | [] => []
  | u :: rest =>
      if is_wonder_html u && !(seen.contains u) then
        u :: dedupWonderAux (u :: seen) rest
      else
        dedupWonderAux seen rest

/-- The deduplicated `is_wonder_html` candidate list of a probe. -/
def dedupWonder (l : List String) : List String := dedupWonderAux [] l

/-- The chosen canonical page of a probe (`scanner.py` lines 139–178):
candidates in collection order — history/header locations, then `r.url` if
it is a wonder `.html` page, then the body-mined URLs — filtered, deduped,
and passed to `pick_best_html` with `r.url` as fallback when applicable. -/
def chosenHtml (rurl : String) (locs mined : List String) : String :=
  pick_best_html
    (dedupWonder (locs ++ (if is_wonder_html rurl then [rurl] else []) ++ mined))
    (if is_wonder_html rurl then some rurl else none)

/-- `f"{BASE}/controller/datarequest/D{dnum}"` (`scanner.py` line 123). -/
def ctrlUrl (dnum : Nat) : String :=
  BASE ++ "/controller/datarequest/D" ++ toString dnum

/-- `probe_d_id` (`scanner.py` lines 121–200), as a function of the
identifier number and the GET outcome. -/
def probe_d_id (dnum : Nat) (res : GetResult) : Row :=
  let sid := "D" ++ toString dnum
  let ctrl := ctrlUrl dnum
  match res with
  | .err msg =>
      { id := sid, controller_url := ctrl, http_status := "error",
        discovery := "error", final_url := "", page_name := "", years := "",
        error := msg }
  | .ok status rurl locs mined =>
      let chosen := chosenHtml rurl locs mined
      if chosen ≠ "" then
        { id := sid, controller_url := ctrl, http_status := toString status,
          discovery := if rstripSlash chosen ≠ rstripSlash ctrl then "redirect" else "direct",
          final_url := chosen,
          page_name := lastSegment (urlPath chosen),
          years := extract_years (lastSegment (urlPath chosen)),
          error := "" }
      else
        { id := sid, controller_url := ctrl, http_status := toString status,
          discovery := if status == 200 then "direct" else "http_" ++ toString status,
          final_url := "", page_name := "", years := "", error := "" }

/-- `map_d_range` (`scanner.py` lines 202–222): one probe per identifier in
`range(start, end + 1)`, rows accumulated in order (the CSV write is
abstracted away). -/
def map_d_range (start e : Nat) (net : Nat → GetResult) : List Row :=
  (List.range' start (e + 1 - start)).map (fun n => probe_d_id n (net n))

/-! ### The link-harvester year extractor — `crawl.py` lines 43–53

`crawl.extract_years` first looks for an adjacent hyphenated pair
`(\d{4})\s*[-–]\s*(\d{4})` (no validity window), and only otherwise falls
back to a boundary-delimited scan for `\b(19[5-9]\d|20[0-4]\d|2050)\b` —
i.e. the window 1950–2050 — followed by the same `sorted(set(...))`
formatting as the scanner.  `\s` is whitespace, `\w` (for `\b`) is
alphanumeric or underscore. -/

/-- Python `\w` (ASCII): alphanumeric or underscore. -/
def isWordChar (c : Char) : Bool := c.isAlphanum || c = '_'

/-- The en-dash alternative of the pair regex `[-–]`. -/
def enDash : Char := Char.ofNat 8211

/-- Four leading digit characters, with the remainder. -/
def take4Digits : List Char → Option ((Char × Char × Char × Char) × List Char)
  | c1 :: c2 :: c3 :: c4 :: rest =>
      if c1.isDigit && c2.isDigit && c3.isDigit && c4.isDigit then
        some ((c1, c2, c3, c4), rest)
      else none
  | _ => none

/-- `\s*`: drop leading whitespace. -/
def skipWs (l : List Char) : List Char := l.dropWhile Char.isWhitespace

/-- One attempted match of `(\d{4})\s*[-–]\s*(\d{4})` at the current
position (the pattern is fixed-width up to `\s*`, whose backtracks can
never help, so the attempt is deterministic). -/
def tryPairAt (l : List Char) : Option (String × String) :=
  match take4Digits l with
  | none => none
  | some ((a1, a2, a3, a4), rest) =>
      match skipWs rest with
      | c :: rest2 =>
          if c = '-' || c = enDash then
            match take4Digits (skipWs rest2) with
            | some ((b1, b2, b3, b4), _) =>
                some (String.mk [a1, a2, a3, a4], String.mk [b1, b2, b3, b4])
            | none => none
          else none
      | [] => none

/-- `re.search` of the pair pattern: leftmost successful position. -/
def pairSearch : List Char → Option (String × String)
  | [] => none
  | l@(_ :: tl) =>
      match tryPairAt l with
      | some p => some p
      | none => pairSearch tl

/-- The year window of the alternation `19[5-9]\d|20[0-4]\d|2050`:
exactly the values 1950–2050 (for a four-digit token). -/
def validCrawlYear (n : Nat) : Bool := 1950 ≤ n && n ≤ 2050

/-- A word boundary before the token: no preceding character, or a
non-word one (the token starts with a digit, a word character). -/
def prevBoundary : Option Char → Bool
  | none => true
  | some p => !(isWordChar p)

/-- A word boundary after the token: end of input or a non-word char. -/
def afterBoundary : List Char → Bool
  | [] => true
  | c :: _ => !(isWordChar c)

/-- Worker for the boundary-delimited year `findall`: `skip > 0` consumes
the tail of a match just emitted; `prev` is the previously scanned
character, for the leading `\b`. -/
def crawlFindGo : Nat → Option Char → List Char → List Nat
  | _, _, [] => []
  | n + 1, _, c :: tl => crawlFindGo n (some c) tl
  | 0, prev, c1 :: tl =>
      match tl.take 3 with
      | [c2, c3, c4] =>
          if prevBoundary prev && c1.isDigit && c2.isDigit && c3.isDigit && c4.isDigit
              && validCrawlYear (char4ToNat c1 c2 c3 c4) && afterBoundary (tl.drop 3) then
            char4ToNat c1 c2 c3 c4 :: crawlFindGo 3 (some c1) tl
          else
            crawlFindGo 0 (some c1) tl
      | _ => []

/-- `re.findall(r"\b(19[5-9]\d|20[0-4]\d|2050)\b", text)`. -/
def crawlFindYears (l : List Char) : List Nat := crawlFindGo 0 none l

/-- `extract_years` of `crawl.py` (lines 43–53). -/
def crawl_extract_years (s : String) : String :=
  if s = "" then ""
  else
    match pairSearch s.toList with
    | some (a, b) => a ++ "-" ++ b
    | none =>
        match sortedDedup (crawlFindYears s.toList) with
        | [] => ""
        | [y] => toString y
        | y :: rest => toString y ++ "-" ++ toString (rest.getLastD y)

/-! ### The catalog writer — `catalog.py` lines 312–368 -/

/-- Value of a non-empty digit string. -/
def digitsVal (l : List Char) : Nat :=
  l.foldl (fun acc c => acc * 10 + (c.toNat - 48)) 0

/-- `dataset_id_sort_key` (`catalog.py` lines 312–315):
`re.match(r"D(\d+)", id)` anchors at the start — a leading `D` followed by
at least one digit (greedily as many as possible) gives that number,
anything else gives `0`. -/
def dataset_id_sort_key (dataset_id : String) : Nat :=
  match dataset_id.toList with
  | [] => 0
  | c :: rest =>
      if c = 'D' then
        match rest.takeWhile Char.isDigit with
        | [] => 0
        | ds => digitsVal ds
      else 0

/-- Sort order of the mapped collection: ordinal ascending
(`catalog.py` line 330); Python's stable sort and `insertionSort` agree. -/
def mappingLe (a b : DatasetMapping) : Prop :=
  dataset_id_sort_key a.dataset_id ≤ dataset_id_sort_key b.dataset_id

instance : DecidableRel mappingLe := fun a b => by
  unfold mappingLe; infer_instance

/-- Sort order of the unmapped collection (`catalog.py` line 345). -/
def unmappedLe (a b : UnmappedDataset) : Prop :=
  dataset_id_sort_key a.dataset_id ≤ dataset_id_sort_key b.dataset_id

instance : DecidableRel unmappedLe := fun a b => by
  unfold unmappedLe; infer_instance

/-- The composite record `output_data` that `write_topics_mapping`
serialises (`catalog.py` lines 355–362); the per-entry dicts carry exactly
the fields of `DatasetMapping` / `UnmappedDataset`, so those structures
stand in for them. -/
structure TopicsOutput where
  description : String
  generated_by : String
  total_mapped : Nat
  total_unmapped : Nat
  mappings : List DatasetMapping
  unmapped : List UnmappedDataset

/-- `write_topics_mapping` (`catalog.py` lines 318–368), returning the
record it would serialise. -/
def write_topics_mapping (mappings : List DatasetMapping)
    (unmapped : List UnmappedDataset) : TopicsOutput :=
  let datasets_list := mappings.insertionSort mappingLe
  let unmapped_list := unmapped.insertionSort unmappedLe
  { description := "CDC Wonder dataset to health topic mappings",
    generated_by := "src/wonder/catalog.py",
    total_mapped := datasets_list.length,
    total_unmapped := unmapped_list.length,
    mappings := datasets_list,
    unmapped := unmapped_list }

/-- The discovery-kind case analysis of a probe row (the claim of C5),
relative to the GET outcome the probe saw: a network error gives "error";
otherwise a chosen canonical page gives "redirect" or "direct" by
comparison (modulo trailing slashes) with the controller URL, and no
chosen page gives "direct" or `http_<status>` from the status code. -/
def DiscoveryKindOk (r : Row) (g : GetResult) (dnum : Nat) : Prop :=
  match g with
  | .err _ => r.discovery = "error"
  | .ok status rurl locs mined =>
      (chosenHtml rurl locs mined ≠ "" →
        r.discovery =
          (if rstripSlash (chosenHtml rurl locs mined) ≠ rstripSlash (ctrlUrl dnum)
            then "redirect" else "direct")) ∧
      (chosenHtml rurl locs mined = "" →
        r.discovery = (if status == 200 then "direct" else "http_" ++ toString status))

/-! ### Helper lemmas about the classifier -/

/-- A rule whose `matchRule` succeeds at the head of the table is the one
returned. -/
theorem firstRule_cons_match (slug : String) (r : TopicRule) (rs : List TopicRule)
    (h : matchRule r slug = true) : firstRule slug (r :: rs) = some r := by
  simp [firstRule, h]

/-- Rules that all fail are skipped. -/
theorem firstRule_append_skip (slug : String) (rs1 rs2 : List TopicRule)
    (h : ∀ r ∈ rs1, matchRule r slug = false) :
    firstRule slug (rs1 ++ rs2) = firstRule slug rs2 := by
  induction rs1 with
  | nil => rfl
  | cons r rs ih =>
      have hr : matchRule r slug = false := h r (List.mem_cons_self r rs)
      simp only [List.cons_append, firstRule, hr]
      exact ih (fun x hx => h x (List.mem_cons_of_mem r hx))

/-- The mapping produced for a row carries the row's identifier. -/
theorem classify_dataset_id (row : Row) (tm : List (String × String))
    (mp : DatasetMapping) (h : classify_dataset row tm = some mp) :
    mp.dataset_id = row.id := by
  unfold classify_dataset at h
  cases hf : firstRule (strLower row.page_name) TOPIC_SEARCH_TERMS with
  | none => rw [hf] at h; cases h
  | some r => rw [hf] at h; cases h; rfl

/-- First component of the classification loop: the successfully
classified rows, in order. -/
theorem catalogCore_fst (rows : List Row) (tm : List (String × String)) :
    (catalogCore rows tm).1 = rows.filterMap (fun r => classify_dataset r tm) := by
  induction rows with
  | nil => rfl
  | cons r rs ih =>
      simp only [catalogCore, List.filterMap_cons]
      cases h : classify_dataset r tm <;> simp [h, ih]

/-- Second component of the classification loop: the rows no rule matched,
in order. -/
theorem catalogCore_snd (rows : List Row) (tm : List (String × String)) :
    (catalogCore rows tm).2
      = (rows.filter (fun r => (classify_dataset r tm).isNone)).map mkUnmapped := by
  induction rows with
  | nil => rfl
  | cons r rs ih =>
      simp only [catalogCore, List.filter_cons]
      cases h : classify_dataset r tm <;> simp [h, ih, Option.isNone]

/-- Each considered row lands in exactly one of the two lists. -/
theorem catalogCore_length (rows : List Row) (tm : List (String × String)) :
    (catalogCore rows tm).1.length + (catalogCore rows tm).2.length = rows.length := by
  induction rows with
  | nil => rfl
  | cons r rs ih =>
      simp only [catalogCore]
      cases h : classify_dataset r tm <;> simp only [h, List.length_cons] <;> omega

/-! ### Claims about the classifier -/

/-- C1: For every dataset row whose lower-cased page slug contains both
"fetal" and "mortality", `classify_dataset` returns a mapping with topic
"Maternal & Child Health" and never "Mortality": the rule table is
evaluated in authored order, and "fetal" is a pattern of the first rule,
so no later rule (in particular "Mortality") is ever consulted. -/
theorem fetal_mortality_classifies_maternal (row : Row) (tm : List (String × String))
    (hf : strContains (strLower row.page_name) "fetal" = true)
    (hm : strContains (strLower row.page_name) "mortality" = true) :
    ∃ mp, classify_dataset row tm = some mp ∧
      mp.topic = "Maternal & Child Health" ∧ mp.topic ≠ "Mortality" := by
  have hmatch : matchRule mchRule (strLower row.page_name) = true := by
    simp [matchRule, mchRule, patMatch, hf]
  unfold classify_dataset TOPIC_SEARCH_TERMS
  rw [firstRule_cons_match _ _ _ hmatch]
  refine ⟨_, rfl, rfl, ?_⟩
  show mchRule.topic ≠ "Mortality"
  decide

/-- Witness for C1: the slug "fetal-mortality.html" contains both markers
and classifies to "Maternal & Child Health". -/
theorem fetal_mortality_classifies_maternal_w :
    ∃ mp, classify_dataset { id := "D9", page_name := "fetal-mortality.html" } [] = some mp ∧
      mp.topic = "Maternal & Child Health" ∧ mp.topic ≠ "Mortality" :=
  fetal_mortality_classifies_maternal
    { id := "D9", page_name := "fetal-mortality.html" } [] (by decide) (by decide)

/-- C2: every row considered by a classification pass (i.e. surviving the
`load_dataset_map` filter) ends up in exactly one of the two returned
lists: the mapped list is exactly the rows `classify_dataset` accepts, the
unmapped list exactly those it rejects, and the lengths add up to the
number of rows considered. -/
theorem catalog_datasets_totality (rows : List Row) (tm : List (String × String)) :
    (catalog_datasets rows tm).1.length + (catalog_datasets rows tm).2.length
        = (load_dataset_map rows).length ∧
    (catalog_datasets rows tm).1
        = (load_dataset_map rows).filterMap (fun r => classify_dataset r tm) ∧
    (catalog_datasets rows tm).2
        = ((load_dataset_map rows).filter (fun r => (classify_dataset r tm).isNone)).map mkUnmapped :=
  ⟨catalogCore_length _ _, catalogCore_fst _ _, catalogCore_snd _ _⟩

/-- C6: a row whose `page_name` is empty or whose `discovery` is not
exactly "redirect" is dropped by `load_dataset_map`, so no identifier
carried only by such rows (e.g. one resolved with discovery "direct")
reaches either output list of `catalog_datasets`. -/
theorem non_redirect_rows_excluded (rows : List Row) (tm : List (String × String))
    (i : String)
    (h : ∀ r ∈ rows, r.id = i → ¬(r.page_name ≠ "" ∧ r.discovery = "redirect")) :
    (∀ mp ∈ (catalog_datasets rows tm).1, mp.dataset_id ≠ i) ∧
    (∀ u ∈ (catalog_datasets rows tm).2, u.dataset_id ≠ i) := by
  constructor
  · intro mp hmp he
    simp only [catalog_datasets] at hmp
    rw [catalogCore_fst] at hmp
    obtain ⟨r, hr, hcl⟩ := List.mem_filterMap.1 hmp
    simp only [load_dataset_map, List.mem_filter, Bool.and_eq_true, bne_iff_ne,
      beq_iff_eq] at hr
    exact h r hr.1 (by rw [← classify_dataset_id r tm mp hcl]; exact he) hr.2
  · intro u hu he
    simp only [catalog_datasets] at hu
    rw [catalogCore_snd] at hu
    obtain ⟨r, hrf, hru⟩ := List.mem_map.1 hu
    have hr1 := (List.mem_filter.1 hrf).1
    simp only [load_dataset_map, List.mem_filter, Bool.and_eq_true, bne_iff_ne,
      beq_iff_eq] at hr1
    apply h r hr1.1 _ hr1.2
    rw [← hru] at he
    exact he

/-- Witness for C6: a successfully resolved row with discovery "direct"
appears in neither output list. -/
theorem non_redirect_rows_excluded_w :
    (∀ mp ∈ (catalog_datasets [{ id := "D5", page_name := "natality.html", discovery := "direct" }] []).1,
        mp.dataset_id ≠ "D5") ∧
    (∀ u ∈ (catalog_datasets [{ id := "D5", page_name := "natality.html", discovery := "direct" }] []).2,
        u.dataset_id ≠ "D5") :=
  non_redirect_rows_excluded
    [{ id := "D5", page_name := "natality.html", discovery := "direct" }] [] "D5"
    (by decide)

/-- C7: the row {id: "D176", page_name: "ucd-icd10.html", discovery:
"redirect"} classifies (for every taxonomy) to topic "Mortality", and its
rationale is the Mortality rule's template formatted with the identifier
and the slug, hence contains both "D176" and "ucd-icd10.html". -/
theorem d176_classifies_mortality (tm : List (String × String)) :
    ∃ mp, classify_dataset
        { id := "D176", page_name := "ucd-icd10.html", discovery := "redirect" } tm
        = some mp ∧
      mp.topic = "Mortality" ∧
      mp.reason = mortalityRule.reason_template "D176" "ucd-icd10.html" ∧
      strContains mp.reason "D176" = true ∧
      strContains mp.reason "ucd-icd10.html" = true := by
  refine ⟨_, rfl, rfl, rfl, ?_, ?_⟩
  · show strContains (mortalityRule.reason_template "D176" "ucd-icd10.html") "D176" = true
    decide
  · show strContains (mortalityRule.reason_template "D176" "ucd-icd10.html")
        "ucd-icd10.html" = true
    decide

/-- C10: the pattern `pm(?:2\.5|25)?` of the Environmental Health rule is
matched by any slug containing the bare substring "pm", so a row whose
lower-cased slug contains "pm" and matches no rule preceding Environmental
Health classifies to "Environmental Health". -/
theorem pm_classifies_env_health (row : Row) (tm : List (String × String))
    (hpm : strContains (strLower row.page_name) "pm" = true)
    (hbefore : ∀ r ∈ TOPIC_SEARCH_TERMS.take 6, matchRule r (strLower row.page_name) = false) :
    ∃ mp, classify_dataset row tm = some mp ∧ mp.topic = "Environmental Health" := by
  have henv : matchRule envHealthRule (strLower row.page_name) = true := by
    simp [matchRule, envHealthRule, patMatch, hpm]
  have hskip : firstRule (strLower row.page_name) TOPIC_SEARCH_TERMS
      = firstRule (strLower row.page_name) [envHealthRule, nndssRule, mortalityRule] := by
    refine firstRule_append_skip (strLower row.page_name)
      [mchRule, popEstRule, natalityRule, cancerRule, infectiousRule, vaccineRule]
      [envHealthRule, nndssRule, mortalityRule] ?_
    intro r hr
    exact hbefore r hr
  unfold classify_dataset
  rw [hskip, firstRule_cons_match _ _ _ henv]
  exact ⟨_, rfl, rfl⟩

/-- Witness for C10: "development.html" contains "pm" (develo-pm-ent),
matches none of the six preceding rules, and classifies to
"Environmental Health". -/
theorem pm_classifies_env_health_w :
    ∃ mp, classify_dataset { id := "D1", page_name := "development.html" } [] = some mp ∧
      mp.topic = "Environmental Health" :=
  pm_classifies_env_health { id := "D1", page_name := "development.html" } []
    (by decide) (by decide)

/-! ### Claims about year extraction -/

/-- C3: `extract_years` collects the `\d{4}` matches, keeps those in
1900–2500 (inclusive), deduplicates and sorts ascending, and renders ""
when none remain, the single value when one remains, and "first-last"
otherwise; in particular the three documented examples hold. -/
theorem extract_years_core_spec :
    (∀ s : String,
      List.Sorted (· < ·) (distinctValidYears s) ∧
      (∀ y : Nat, y ∈ distinctValidYears s ↔
        (y ∈ findall4 s.toList ∧ 1900 ≤ y ∧ y ≤ 2500)) ∧
      (distinctValidYears s = [] → extract_years s = "") ∧
      (∀ y, distinctValidYears s = [y] → extract_years s = toString y) ∧
      (∀ y l, distinctValidYears s = y :: l → l ≠ [] →
        extract_years s = toString y ++ "-" ++ toString (l.getLastD y))) ∧
    extract_years "x-1999-2005" = "1999-2005" ∧
    extract_years "x-2010" = "2010" ∧
    extract_years "x" = "" := by
  refine ⟨fun s => ⟨?_, ?_, ?_, ?_, ?_⟩, by decide, by decide, by decide⟩
  · have h1 : List.Sorted (· ≤ ·) (distinctValidYears s) :=
      List.sorted_insertionSort _ _
    have h2 : (distinctValidYears s).Nodup := by
      unfold distinctValidYears sortedDedup
      exact ((List.perm_insertionSort _ _).nodup_iff).2 (List.nodup_dedup _)
    exact h1.lt_of_le h2
  · intro y
    unfold distinctValidYears sortedDedup
    rw [List.mem_insertionSort, List.mem_dedup, List.mem_filter]
    simp [validYear]
  · intro h
    by_cases hs : s = ""
    · subst hs; rfl
    · unfold extract_years
      rw [if_neg hs, h]
  · intro y h
    by_cases hs : s = ""
    · subst hs
      exact List.noConfusion (show ([] : List Nat) = [y] from h)
    · unfold extract_years
      rw [if_neg hs, h]
  · intro y l h hl
    by_cases hs : s = ""
    · subst hs
      exact List.noConfusion (show ([] : List Nat) = y :: l from h)
    · unfold extract_years
      rw [if_neg hs, h]
      cases l with
      | nil => exact absurd rfl hl
      | cons a as => rfl

/-- Witness for C3: at the input "x" the year list is empty and the
extractor returns "". -/
theorem extract_years_core_spec_w : extract_years "x" = "" :=
  (extract_years_core_spec.1 "x").2.2.1 rfl

/-- C8: the scanner's year extractor and the link harvester's are not
extensionally equal: "1900" is inside the scanner's 1900–2500 window but
outside the harvester's 1950–2050 window, and on "2005 1999-2001" the
harvester prefers the adjacent hyphenated pair while the scanner merges
all years into a broad range. -/
theorem scanner_crawl_extractors_differ :
    extract_years "1900" = "1900" ∧
    crawl_extract_years "1900" = "" ∧
    extract_years "1900" ≠ crawl_extract_years "1900" ∧
    extract_years "2005 1999-2001" = "1999-2005" ∧
    crawl_extract_years "2005 1999-2001" = "1999-2001" ∧
    extract_years "2005 1999-2001" ≠ crawl_extract_years "2005 1999-2001" ∧
    ¬(∀ s : String, extract_years s = crawl_extract_years s) := by
  refine ⟨by decide, by decide, by decide, by decide, by decide, by decide, fun hall => ?_⟩
  exact absurd (hall "1900") (by decide)

/-! ### Claim about the catalog writer -/

/-- C9: `write_topics_mapping` emits both collections sorted ascending by
the identifier's numeric ordinal (permutations of its inputs), with the
totals equal to the collection lengths; `dataset_id_sort_key` reads the
integer after a leading "D" and sends every other shape to 0. -/
theorem write_topics_mapping_spec (ms : List DatasetMapping) (us : List UnmappedDataset) :
    (write_topics_mapping ms us).total_mapped = (write_topics_mapping ms us).mappings.length ∧
    (write_topics_mapping ms us).total_unmapped = (write_topics_mapping ms us).unmapped.length ∧
    (write_topics_mapping ms us).mappings.Perm ms ∧
    (write_topics_mapping ms us).unmapped.Perm us ∧
    List.Sorted mappingLe (write_topics_mapping ms us).mappings ∧
    List.Sorted unmappedLe (write_topics_mapping ms us).unmapped ∧
    dataset_id_sort_key "D27" = 27 ∧
    dataset_id_sort_key "D" = 0 ∧
    dataset_id_sort_key "X27" = 0 := by
  haveI : IsTotal DatasetMapping mappingLe := ⟨fun a b => Nat.le_total _ _⟩
  haveI : IsTrans DatasetMapping mappingLe := ⟨fun _ _ _ => Nat.le_trans⟩
  haveI : IsTotal UnmappedDataset unmappedLe := ⟨fun a b => Nat.le_total _ _⟩
  haveI : IsTrans UnmappedDataset unmappedLe := ⟨fun _ _ _ => Nat.le_trans⟩
  exact ⟨rfl, rfl, List.perm_insertionSort _ _, List.perm_insertionSort _ _,
    List.sorted_insertionSort _ _, List.sorted_insertionSort _ _,
    by decide, by decide, by decide⟩

/-! ### The candidate order of `pick_best_html` is a total preorder whose
ties are exactly equal strings -/

/-- `candLe` is reflexive. -/
theorem candLe_refl (a : String) : candLe a a :=
  Or.inr ⟨rfl, Or.inr ⟨rfl, le_refl a⟩⟩

/-- `candLe` is total. -/
theorem candLe_total (a b : String) : candLe a b ∨ candLe b a := by
  unfold candLe
  rcases Nat.lt_trichotomy (candScore a) (candScore b) with h | h | h
  · exact Or.inr (Or.inl h)
  · rcases Nat.lt_trichotomy (candPathLen a) (candPathLen b) with h2 | h2 | h2
    · exact Or.inl (Or.inr ⟨h, Or.inl h2⟩)
    · rcases le_total a b with h3 | h3
      · exact Or.inl (Or.inr ⟨h, Or.inr ⟨h2, h3⟩⟩)
      · exact Or.inr (Or.inr ⟨h.symm, Or.inr ⟨h2.symm, h3⟩⟩)
    · exact Or.inr (Or.inr ⟨h.symm, Or.inl h2⟩)
  · exact Or.inl (Or.inl h)

/-- `candLe` is transitive. -/
theorem candLe_trans {a b c : String} (h1 : candLe a b) (h2 : candLe b c) :
    candLe a c := by
  unfold candLe at h1 h2 ⊢
  rcases h1 with h1 | ⟨e1, h1⟩
  · rcases h2 with h2 | ⟨e2, _⟩
    · exact Or.inl (lt_trans h2 h1)
    · exact Or.inl (by rw [← e2]; exact h1)
  · rcases h2 with h2 | ⟨e2, h2⟩
    · exact Or.inl (by rw [e1]; exact h2)
    · refine Or.inr ⟨e1.trans e2, ?_⟩
      rcases h1 with h1 | ⟨f1, g1⟩
      · rcases h2 with h2 | ⟨f2, _⟩
        · exact Or.inl (lt_trans h1 h2)
        · exact Or.inl (by rw [← f2]; exact h1)
      · rcases h2 with h2 | ⟨f2, g2⟩
        · exact Or.inl (by rw [f1]; exact h2)
        · exact Or.inr ⟨f1.trans f2, le_trans g1 g2⟩

/-- Two candidates below each other are the same string: ties in score and
path length are broken by the string order, which is antisymmetric. -/
theorem candLe_antisymm {a b : String} (h1 : candLe a b) (h2 : candLe b a) :
    a = b := by
  unfold candLe at h1 h2
  rcases h1 with h1 | ⟨e1, h1 | ⟨f1, g1⟩⟩ <;>
    rcases h2 with h2 | ⟨e2, h2 | ⟨f2, g2⟩⟩ <;>
      first
        | omega
        | exact le_antisymm g1 g2

/-! ### Claim about the candidate selector -/

/-- C4: `pick_best_html` removes block-listed candidates; if that removal
empties a non-empty candidate list the fallback value is returned;
otherwise the result is a remaining candidate that is minimal under the
sort order (score descending, path length ascending, then the URL itself
ascending) and is the unique such minimum, so equal calls agree and ties
break lexicographically. -/
theorem pick_best_html_spec (cs : List String) (fb : Option String) :
    (cs ≠ [] → cs.filter (fun u => !(ignoredCand u)) = [] →
      pick_best_html cs fb = fb.getD "") ∧
    (cs.filter (fun u => !(ignoredCand u)) ≠ [] →
      pick_best_html cs fb ∈ cs.filter (fun u => !(ignoredCand u)) ∧
      (∀ v ∈ cs.filter (fun u => !(ignoredCand u)), candLe (pick_best_html cs fb) v) ∧
      (∀ v ∈ cs.filter (fun u => !(ignoredCand u)),
        candLe v (pick_best_html cs fb) → v = pick_best_html cs fb)) := by
  haveI : IsTotal String candLe := ⟨candLe_total⟩
  haveI : IsTrans String candLe := ⟨fun _ _ _ => candLe_trans⟩
  constructor
  · intro hcs hfil
    unfold pick_best_html
    rw [if_neg (by simpa [List.isEmpty_iff] using hcs),
      if_pos (by simpa [List.isEmpty_iff] using hfil)]
  · intro hfil
    have hcs : ¬cs.isEmpty = true := by
      cases cs with
      | nil => simp at hfil
      | cons c cs' => simp
    have hpick : pick_best_html cs fb
        = ((cs.filter (fun u => !(ignoredCand u))).insertionSort candLe).headD "" := by
      unfold pick_best_html
      rw [if_neg hcs, if_neg (by simpa [List.isEmpty_iff] using hfil)]
    rcases hLne : (cs.filter (fun u => !(ignoredCand u))).insertionSort candLe with _ | ⟨x, xs⟩
    · exfalso
      have hperm := List.perm_insertionSort candLe (cs.filter (fun u => !(ignoredCand u)))
      rw [hLne] at hperm
      exact hfil hperm.symm.eq_nil
    · have hx : pick_best_html cs fb = x := by rw [hpick, hLne]; rfl
      have hsor := List.sorted_insertionSort candLe (cs.filter (fun u => !(ignoredCand u)))
      rw [hLne] at hsor
      have hmem : ∀ v ∈ cs.filter (fun u => !(ignoredCand u)), v = x ∨ v ∈ xs := by
        intro v hv
        have hv2 : v ∈ x :: xs := by
          rw [← hLne, List.mem_insertionSort]; exact hv
        simpa using hv2
      refine ⟨?_, ?_, ?_⟩
      · rw [hx]
        have hx2 : x ∈ x :: xs := List.mem_cons_self x xs
        rw [← hLne, List.mem_insertionSort] at hx2
        exact hx2
      · intro v hv
        rw [hx]
        rcases hmem v hv with rfl | hvx
        · exact candLe_refl v
        · exact List.rel_of_sorted_cons hsor v hvx
      · intro v hv hle
        rw [hx] at hle ⊢
        rcases hmem v hv with rfl | hvx
        · rfl
        · exact candLe_antisymm hle (List.rel_of_sorted_cons hsor v hvx)

/-- Witness for C4: the single candidate is block-listed, so the fallback
value is returned. -/
theorem pick_best_html_spec_w :
    pick_best_html ["https://wonder.cdc.gov/faq.html"] (some "FB") = "FB" :=
  (pick_best_html_spec ["https://wonder.cdc.gov/faq.html"] (some "FB")).1
    (by decide) (by decide)

/-! ### Claim about the dataset-map builder -/

/-- C5: over any range with `start ≤ end`, `map_d_range` produces exactly
one row per identifier (row `i` carries id `D(start+i)`), each row's
discovery kind is one of direct / redirect / error / `http_<code>`, and
the kind is determined from the GET outcome as the code determines it:
"error" on a network exception, redirect/direct by comparing the chosen
page with the controller URL modulo trailing slashes, and
direct/`http_<status>` from the status when no page was chosen. -/
theorem map_d_range_spec (net : Nat → GetResult) (start e : Nat) (h : start ≤ e) :
    (map_d_range start e net).length = e + 1 - start ∧
    0 < (map_d_range start e net).length ∧
    (∀ i (hi : i < (map_d_range start e net).length),
      ((map_d_range start e net).get ⟨i, hi⟩).id = "D" ++ toString (start + i) ∧
      (((map_d_range start e net).get ⟨i, hi⟩).discovery = "direct" ∨
        ((map_d_range start e net).get ⟨i, hi⟩).discovery = "redirect" ∨
        ((map_d_range start e net).get ⟨i, hi⟩).discovery = "error" ∨
        ∃ c : Nat, ((map_d_range start e net).get ⟨i, hi⟩).discovery
          = "http_" ++ toString c) ∧
      DiscoveryKindOk ((map_d_range start e net).get ⟨i, hi⟩)
        (net (start + i)) (start + i)) := by
  have hlen : (map_d_range start e net).length = e + 1 - start := by
    simp [map_d_range]
  refine ⟨hlen, by rw [hlen]; omega, ?_⟩
  intro i hi
  have hget : (map_d_range start e net).get ⟨i, hi⟩
      = probe_d_id (start + i) (net (start + i)) := by
    simp [map_d_range, List.get_eq_getElem, List.getElem_map, List.getElem_range']
  rw [hget]
  rcases hnet : net (start + i) with msg | ⟨status, rurl, locs, mined⟩
  · exact ⟨rfl, Or.inr (Or.inr (Or.inl rfl)), by simp [DiscoveryKindOk, probe_d_id]⟩
  · by_cases hch : chosenHtml rurl locs mined = ""
    · refine ⟨by simp [probe_d_id, hch], ?_, ?_⟩
      · by_cases hst : (status == 200) = true
        · exact Or.inl (by simp [probe_d_id, hch, hst])
        · exact Or.inr (Or.inr (Or.inr ⟨status, by simp [probe_d_id, hch, hst]⟩))
      · refine ⟨fun hne => absurd hch hne, fun _ => ?_⟩
        simp [probe_d_id, hch]
    · refine ⟨by simp [probe_d_id, hch], ?_, ?_⟩
      · by_cases hrr : rstripSlash (chosenHtml rurl locs mined)
            ≠ rstripSlash (ctrlUrl (start + i))
        · exact Or.inr (Or.inl (by simp [probe_d_id, hch, hrr]))
        · exact Or.inl (by simp [probe_d_id, hch, hrr])
      · refine ⟨fun _ => ?_, fun heq => absurd heq hch⟩
        simp [probe_d_id, hch]

/-- Witness for C5: a one-element range under a failing network yields the
single row count the theorem states. -/
theorem map_d_range_spec_w :
    (map_d_range 3 3 (fun _ => GetResult.err "connection refused")).length = 3 + 1 - 3 :=
  (map_d_range_spec (fun _ => GetResult.err "connection refused") 3 3 (Nat.le_refl 3)).1

/-- Witness for C8: the concrete divergence input "1900" evaluated through
the scanner extractor. -/
theorem scanner_crawl_extractors_differ_w : extract_years "1900" = "1900" :=
  scanner_crawl_extractors_differ.1
